import Mathlib

/-!
Shallow embedding of the client-side markdown rendering pipeline of
`src/js/markdown-viewer.js` (the only engineered logic in the repository).

Strings are modelled as lists of character codes (`List Nat`), matching the
JavaScript view of a string as a sequence of code units.  All definitions are
translated from the source file; line references are given in the doc
comments.  External collaborators (highlight.js, mermaid, MathJax, marked)
are modelled at the call boundary exactly as the source invokes them.
-/

namespace MarkdownViewer

/-- Convert a Lean string literal to the character-code list used by the
model; only used to spell concrete test strings. -/
def str (s : String) : List Nat := s.toList.map Char.toNat

/-- JavaScript regexp `\s` (whitespace), as used by `replace(/\s+/g, "-")`
and `trim()` in `markdown-viewer.js` line 96-98: ASCII whitespace plus the
Unicode space characters that `\s` matches. -/
def isWs (c : Nat) : Bool :=
  c = 9 || c = 10 || c = 11 || c = 12 || c = 13 || c = 32 || c = 160 ||
  c = 5760 || (8192 ≤ c && c ≤ 8202) || c = 8232 || c = 8233 ||
  c = 8239 || c = 8287 || c = 12288 || c = 65279

/-- JavaScript regexp `\w` (word characters): ASCII letters, digits and
underscore, as used by `replace(/[^\w-]/g, "")` in line 99. -/
def isWordChar (c : Nat) : Bool :=
  (48 ≤ c && c ≤ 57) || (65 ≤ c && c ≤ 90) || (97 ≤ c && c ≤ 122) || c = 95

/-- Characters kept by `replace(/[^\w-]/g, "")`: word characters and the
hyphen (code 45). -/
def keepWordHyphen (c : Nat) : Bool := isWordChar c || c = 45

/-- `toLowerCase()` on a single code point.  In `markdown-viewer.js` it is
applied (line 100) to a string already restricted to `[A-Za-z0-9_-]`, where
lowercasing is exactly the ASCII shift modelled here. -/
def lowerCode (c : Nat) : Nat := if 65 ≤ c && c ≤ 90 then c + 32 else c

/-- `String.prototype.trim()` (line 95): drop leading and trailing
whitespace. -/
def jsTrim (t : List Nat) : List Nat :=
  ((t.dropWhile isWs).reverse.dropWhile isWs).reverse

/-- Worker for `collapseWs`; the Boolean records whether the previous
character was whitespace (i.e. we are inside a run already replaced). -/
def collapseWsAux : Bool → List Nat → List Nat
  | _, [] => []
  | prevWs, c :: cs =>
    if isWs c then
      if prevWs then collapseWsAux true cs
      else 45 :: collapseWsAux true cs
    else c :: collapseWsAux false cs

/-- `replace(/\s+/g, "-")` (line 97): every maximal whitespace run becomes a
single hyphen. -/
def collapseWs (t : List Nat) : List Nat := collapseWsAux false t

/-- The slug computation of lines 95-100:
`text.trim().replace(/\s+/g,"-").replace(/[^\w-]/g,"").toLowerCase()`. -/
def jsSlug (t : List Nat) : List Nat :=
  ((collapseWs (jsTrim t)).filter keepWordHyphen).map lowerCode

/-- A level-1/2/3 heading element as the TOC code sees it: its level, its
`id` DOM property (the empty list when the attribute is absent, as in the
DOM) and its `textContent`. -/
structure Heading where
  level : Nat
  idAttr : List Nat
  text : List Nat
deriving DecidableEq

/-- Line 93-100: `const headingId = h.id || h.textContent…`.  A non-empty
existing id is reused; the empty id (absent attribute) is falsy, so the slug
of the text is derived instead. -/
def headingId (h : Heading) : List Nat :=
  if h.idAttr = [] then jsSlug h.text else h.idAttr

/-- Line 107: `a.href = "#" + headingId` (35 is the code of `#`). -/
def tocHref (h : Heading) : List Nat := 35 :: headingId h

/-- The anchor created for one TOC entry (lines 105-107, 111-114). -/
structure AnchorNode where
  textContent : List Nat
  href : List Nat
  classes : List (List Nat)
deriving DecidableEq

/-- One `li` of the generated TOC.  `childItems` records any nested list
items appended under this entry (the DOM allows nesting; the generator never
produces any). -/
structure LiNode where
  classes : List (List Nat)
  anchors : List AnchorNode
  childItems : List LiNode

/-- The single `ul` built at line 89 and filled by the forEach loop. -/
structure UlNode where
  items : List LiNode

/-- Lines 104-117: the body of `headings.forEach((h, idx) => …)` producing
one `li` (with `has-active`/`active` classes on the first entry). -/
def mkTocItem (idx : Nat) (h : Heading) : LiNode :=
  { classes := if idx = 0 then [str "has-active"] else []
    anchors := [{ textContent := h.text
                  href := tocHref h
                  classes := if idx = 0 then [str "active"] else [] }]
    childItems := [] }

/-- The forEach loop with its running index: each heading appends one item
directly to the single `ul`. -/
def buildTocAux : Nat → List Heading → List LiNode
  | _, [] => []
  | idx, h :: hs => mkTocItem idx h :: buildTocAux (idx + 1) hs

/-- Lines 89-118: the complete generated TOC list. -/
def buildToc (hs : List Heading) : UlNode := ⟨buildTocAux 0 hs⟩

/-- A `th`/`td` cell: its text, whether it is a header cell, and its inline
style, recorded as the list of `(property, value)` pairs assigned through
`el.style`, in assignment order. -/
structure StyledCell where
  isHeader : Bool
  text : List Nat
  style : List (List Nat × List Nat)
deriving DecidableEq

/-- A `tr` with its cells and inline style. -/
structure StyledRow where
  cells : List StyledCell
  style : List (List Nat × List Nat)
deriving DecidableEq

/-- A rendered table as marked.js emits it: one header row inside `thead`,
the data rows inside `tbody`, plus the table element's classes and inline
style. -/
structure HtmlTable where
  classes : List (List Nat)
  headerRow : StyledRow
  dataRows : List StyledRow
  style : List (List Nat × List Nat)
deriving DecidableEq

/-- Lines 38-41: `cell.style.border = '1px solid #d0d7de';
cell.style.padding = '6px 13px';` applied to every `th, td`. -/
def styleCell (c : StyledCell) : StyledCell :=
  { c with style := c.style ++
      [(str "border", str "1px solid #d0d7de"), (str "padding", str "6px 13px")] }

/-- Lines 43-45: `row.style.backgroundColor = '#f6f8fa'` on the rows matched
by `tr:nth-child(even)`. -/
def shadeRow (r : StyledRow) : StyledRow :=
  { r with style := r.style ++ [(str "background-color", str "#f6f8fa")] }

/-- The `tbody` rows after cell styling and `tr:nth-child(even)` shading.
`pos` is the row's 1-based child position inside `tbody` (the CSS
`:nth-child` count), so the row with 0-based data index `i` has
`pos = i + 1` and is shaded exactly when `i + 1` is even. -/
def styleDataRows : Nat → List StyledRow → List StyledRow
  | _, [] => []
  | pos, r :: rs =>
    let r' := { r with cells := r.cells.map styleCell }
    (if pos % 2 = 0 then shadeRow r' else r') :: styleDataRows (pos + 1) rs

/-- Lines 29-45: the per-table body of
`container.querySelectorAll('table').forEach(tbl => …)`.  The header row is
the only child of `thead` (child position 1, odd), so `tr:nth-child(even)`
never matches it; its cells still receive the `th, td` styling. -/
def styleTable (t : HtmlTable) : HtmlTable :=
  { classes := t.classes ++
      [str "table", str "table-striped", str "table-bordered", str "table-hover"]
    headerRow := { t.headerRow with cells := t.headerRow.cells.map styleCell }
    dataRows := styleDataRows 1 t.dataRows
    style := t.style ++
      [(str "border-collapse", str "collapse"),
       (str "border", str "1px solid #d0d7de"),
       (str "margin", str "1rem 0"),
       (str "width", str "100%")] }

/-- An element of the rendered fragment inside `#markdown-container`, as the
post-processing stages observe it.  `codeBlock lang src highlighted` is a
`pre > code.language-<lang>` block (`lang = []` when the fence had no
language); the `highlighted` flag records whether `hljs.highlightAll()` has
already processed the block (highlighting rewrites the element's innerHTML
into token spans but leaves `textContent` equal to `src`).  `mermaidDiv` is
the `<div class="mermaid">` replacement produced at lines 20-25.  `errorP`
is the single red error paragraph written by the catch handler at
line 133. -/
inductive Elem where
  | heading (level : Nat) (idAttr : List Nat) (text : List Nat)
  | codeBlock (lang : List Nat) (source : List Nat) (highlighted : Bool)
  | mermaidDiv (source : List Nat)
  | table (t : HtmlTable)
  | errorP (text : List Nat)
  | other (text : List Nat)
deriving DecidableEq

/-- Line 17: `hljs.highlightAll()`.  highlight.js selects every `pre code`
element present in the document at that moment and runs `highlightElement`
(its tokenizer) on it; the call carries no configuration excluding any
language, so `code.language-mermaid` blocks are selected like any other.
The flag records the invocation; `textContent` is preserved. -/
def applyHighlight (doc : List Elem) : List Elem :=
  doc.map fun e =>
    match e with
    | .codeBlock lang src _ => .codeBlock lang src true
    | e => e

/-- Lines 20-25: every `pre code.language-mermaid` block (class matched
case-sensitively) is replaced — `block.parentNode.replaceWith(div)` — by a
`div.mermaid` whose `textContent` is `block.textContent`, i.e. the raw
fence source. -/
def convertMermaid (doc : List Elem) : List Elem :=
  doc.map fun e =>
    match e with
    | .codeBlock lang src hl =>
      if lang = str "mermaid" then .mermaidDiv src else .codeBlock lang src hl
    | e => e

/-- Lines 28-45: `container.querySelectorAll('table').forEach(…)`. -/
def styleAllTables (doc : List Elem) : List Elem :=
  doc.map fun e =>
    match e with
    | .table t => .table (styleTable t)
    | e => e

/-- Line 91: `markdownContainer.querySelectorAll("h1, h2, h3")`, in document
order. -/
def extractHeadings (doc : List Elem) : List Heading :=
  doc.filterMap fun e =>
    match e with
    | .heading lvl id t =>
      if lvl = 1 || lvl = 2 || lvl = 3 then some ⟨lvl, id, t⟩ else none
    | _ => none

/-- Line 102: `h.id = headingId` — the forEach loop writes the derived id
back onto each selected heading (only `h1, h2, h3` are selected). -/
def assignIds (doc : List Elem) : List Elem :=
  doc.map fun e =>
    match e with
    | .heading lvl id t =>
      if lvl = 1 || lvl = 2 || lvl = 3 then .heading lvl (headingId ⟨lvl, id, t⟩) t
      else e
    | e => e

/-- Outcome of `fetch(file)` (lines 7-11): a transport-level rejection
(carrying the stringified error the catch handler interpolates), or a
response with its `ok` flag, `status`, and — when consumed — the parsed
fragment that `marked.parse` produces from its body text. -/
inductive FetchOutcome where
  | networkError (errStr : List Nat)
  | response (ok : Bool) (status : Nat) (doc : List Elem)

/-- Configuration of one page load: whether each post-processing stage
throws (carrying the stringified thrown value), and which optional
collaborators / targets are present.  `navPresent` models that both
`#toc-content-auto` and `nav#TableOfContents` were found (lines 62-84). -/
structure StageCfg where
  highlightThrows : Option (List Nat)
  convertThrows : Option (List Nat)
  tableThrows : Option (List Nat)
  mermaidPresent : Bool
  mathjaxPresent : Bool
  navPresent : Bool

/-- Observable events of one page load, in execution order. -/
inductive Ev where
  | fetchIssued (ref : Option (List Nat))
  | setContent
  | highlight
  | convertDiagrams
  | styleTablesRun
  | mermaidRun
  | mathTypeset
  | tocBuilt
  | errorWritten
deriving DecidableEq

/-- Final state of the two host-owned targets.  `container = none` means
`#markdown-container`'s innerHTML was never assigned; `nav = none` means the
`nav#TableOfContents` content was never replaced. -/
structure PageState where
  container : Option (List Elem)
  nav : Option UlNode

/-- Line 9: the message of the `Error` thrown on a non-ok response,
`"HTTP " + res.status`. -/
def httpMsg (status : Nat) : List Nat :=
  str "HTTP " ++ (Nat.toDigits 10 status).map Char.toNat

/-- JavaScript stringification of an `Error` object, as interpolated by
`${err}` at line 133: `"Error: " ++ message`. -/
def jsErrorStr (msg : List Nat) : List Nat := str "Error: " ++ msg

/-- Line 133: the text of the single error paragraph
`<p style="color:red">Failed to load markdown: ${err}</p>`. -/
def failHtml (errStr : List Nat) : List Nat :=
  str "Failed to load markdown: " ++ errStr

/-- Lines 13-129: the body of `.then(md => { … })`.  Any exception thrown by
a stage propagates out of the callback and is caught by the final `.catch`
(lines 132-135), which overwrites the container with the error paragraph;
stages after the throwing one never run.  On the success path the stages run
in source order: innerHTML assignment, `hljs.highlightAll()`, mermaid block
conversion, table styling, the mermaid render trigger, the MathJax trigger,
then TOC generation (which also writes the heading ids and only runs when
the navigation target exists and at least one heading was found). -/
def runThen (cfg : StageCfg) (doc : List Elem) : List Ev × PageState :=
  match cfg.highlightThrows with
  | some e =>
    ([.setContent, .highlight, .errorWritten],
     ⟨some [.errorP (failHtml e)], none⟩)
  | none =>
    let d1 := applyHighlight doc
    match cfg.convertThrows with
    | some e =>
      ([.setContent, .highlight, .convertDiagrams, .errorWritten],
       ⟨some [.errorP (failHtml e)], none⟩)
    | none =>
      let d2 := convertMermaid d1
      match cfg.tableThrows with
      | some e =>
        ([.setContent, .highlight, .convertDiagrams, .styleTablesRun, .errorWritten],
         ⟨some [.errorP (failHtml e)], none⟩)
      | none =>
        let d3 := styleAllTables d2
        let evs := [.setContent, .highlight, .convertDiagrams, .styleTablesRun]
          ++ (if cfg.mermaidPresent then [.mermaidRun] else [])
          ++ (if cfg.mathjaxPresent then [.mathTypeset] else [])
        let hs := extractHeadings d3
        if cfg.navPresent && !hs.isEmpty then
          (evs ++ [.tocBuilt], ⟨some (assignIds d3), some (buildToc hs)⟩)
        else
          (evs, ⟨some d3, none⟩)

/-- Lines 7-135: the full promise chain after `fetch(file)` settles.  A
rejected fetch or a non-ok response reaches the catch handler directly:
the container is overwritten with the single error paragraph and nothing
else runs. -/
def run (cfg : StageCfg) (outcome : FetchOutcome) : List Ev × PageState :=
  match outcome with
  | .networkError e =>
    ([.errorWritten], ⟨some [.errorP (failHtml e)], none⟩)
  | .response ok status doc =>
    if ok then runThen cfg doc
    else ([.errorWritten],
          ⟨some [.errorP (failHtml (jsErrorStr (httpMsg status)))], none⟩)

/-- Lines 1-7: the DOMContentLoaded handler.  If `#markdown-container` is
absent the handler returns before doing anything.  Otherwise
`container.dataset.file` is read (possibly `undefined`, modelled as `none`)
and `fetch(file)` is issued with it unconditionally — there is no guard on a
missing `data-file` attribute.  `net` gives the outcome the environment
produces for each possible reference. -/
def onLoad (containerPresent : Bool) (fileAttr : Option (List Nat))
    (cfg : StageCfg) (net : Option (List Nat) → FetchOutcome) :
    List Ev × PageState :=
  if containerPresent then
    let r := run cfg (net fileAttr)
    (.fetchIssued fileAttr :: r.1, r.2)
  else ([], ⟨none, none⟩)

/-- How many times event `e` occurs in a trace. -/
def countEv (e : Ev) : List Ev → Nat
  | [] => 0
  | x :: xs => (if x = e then 1 else 0) + countEv e xs

/-- Index of the first occurrence of `e` in a trace. -/
def idxOfEv (e : Ev) : List Ev → Option Nat
  | [] => none
  | x :: xs => if x = e then some 0 else (idxOfEv e xs).map (· + 1)

/-- `beforeEv a b l` holds when `a` occurs in `l` and its first occurrence
precedes every occurrence of `b` (vacuously when `b` never occurs). -/
def beforeEv (a b : Ev) (l : List Ev) : Bool :=
  match idxOfEv a l, idxOfEv b l with
  | some i, some j => decide (i < j)
  | _, none => (idxOfEv a l).isSome
  | none, some _ => false

/-- All anchor hrefs reachable in the navigation target, in document
order. -/
def navHrefs (s : PageState) : List (List Nat) :=
  match s.nav with
  | none => []
  | some ul => (ul.items.map (fun li => li.anchors.map (fun a => a.href))).flatten

/-- A page load where no stage throws, the optional renderers are absent and
the navigation target exists. -/
def cfgPlain : StageCfg := ⟨none, none, none, false, false, true⟩

/-- A page load whose syntax-highlighting stage throws. -/
def cfgHlThrows : StageCfg :=
  ⟨some (str "TypeError: boom"), none, none, false, false, true⟩

/-- A page load whose diagram-conversion stage throws. -/
def cfgCvThrows : StageCfg :=
  ⟨none, some (str "TypeError: boom2"), none, false, false, true⟩

/-- A page load whose table-styling stage throws. -/
def cfgTbThrows : StageCfg :=
  ⟨none, none, some (str "TypeError: boom3"), false, false, true⟩

/-- A page load with MathJax present and the navigation target present. -/
def cfgMath : StageCfg := ⟨none, none, none, false, true, true⟩

/-- Three headings of levels 1, 2, 3 sharing the same text and carrying no
pre-existing id. -/
def titleDoc : List Elem :=
  [Elem.heading 1 [] (str "Title"), Elem.heading 2 [] (str "Title"),
   Elem.heading 3 [] (str "Title")]

/-- The raw source of a mermaid fenced code block. -/
def mermaidSrc : List Nat := str "graph TD; A-->B;"

/-- A fragment holding one mermaid-tagged code block, not yet processed by
any stage. -/
def mermaidDoc : List Elem := [Elem.codeBlock (str "mermaid") mermaidSrc false]

/-- A rendered two-data-row table with no classes and no inline styles, as
marked.js emits it. -/
def demoTable : HtmlTable :=
  ⟨[], ⟨[⟨true, str "H", []⟩], []⟩,
   [⟨[⟨false, str "a", []⟩], []⟩, ⟨[⟨false, str "b", []⟩], []⟩], []⟩

/-- A fragment holding one table and one heading. -/
def tableHeadingDoc : List Elem :=
  [Elem.table demoTable, Elem.heading 1 [] (str "Title")]

/-- A network that rejects every fetch with a transport error. -/
def netAlwaysFails : Option (List Nat) → FetchOutcome :=
  fun _ => .networkError (str "TypeError: Failed to fetch")

/-- C1: for a document with three level-1/2/3 headings all titled "Title"
and carrying no pre-existing ids, the pipeline assigns all three headings
the same id "title" and the synthesized TOC carries three entries whose
hrefs are all "#title" — the assigned identifiers are not pairwise
distinct, contradicting the uniqueness invariant the spec states (the spec
itself flags the missing collision handling as a defect of the code). -/
theorem C1_duplicate_heading_ids :
    (run cfgPlain (.response true 200 titleDoc)).2.container =
      some [Elem.heading 1 (str "title") (str "Title"),
            Elem.heading 2 (str "title") (str "Title"),
            Elem.heading 3 (str "title") (str "Title")]
    ∧ navHrefs (run cfgPlain (.response true 200 titleDoc)).2 =
        [str "#title", str "#title", str "#title"]
    ∧ ¬ (navHrefs (run cfgPlain (.response true 200 titleDoc)).2).Nodup := by
  decide

/-- C2: the source calls `hljs.highlightAll()` (step 2, line 17) before
converting mermaid blocks (step 3, lines 20-25), and the call excludes no
language, so a diagram-tagged block is passed through the highlighter's
tokenizer before conversion: after the highlighting stage the mermaid block
is marked processed, the highlight event precedes the conversion event in
the trace, and only then is the block replaced by the mermaid container
(whose text is, as the claim's second half states, the verbatim source). -/
theorem C2_highlighter_reaches_mermaid_block :
    applyHighlight mermaidDoc = [Elem.codeBlock (str "mermaid") mermaidSrc true]
    ∧ convertMermaid (applyHighlight mermaidDoc) = [Elem.mermaidDiv mermaidSrc]
    ∧ beforeEv .highlight .convertDiagrams
        (run cfgPlain (.response true 200 mermaidDoc)).1 = true
    ∧ (run cfgPlain (.response true 200 mermaidDoc)).2.container =
        some [Elem.mermaidDiv mermaidSrc] := by
  decide

/-- C3 counterexample: when the syntax-highlighting stage throws, on a
document containing a table and a heading, table styling and TOC synthesis
do not run (their events are absent, the navigation target is never
written) and the container is overwritten with the error paragraph — a
stage failure aborts the remainder of the pipeline, contradicting the
claim. -/
theorem C3_stage_throw_aborts_cex :
    (run cfgHlThrows (.response true 200 tableHeadingDoc)).1 =
      [.setContent, .highlight, .errorWritten]
    ∧ Ev.styleTablesRun ∉ (run cfgHlThrows (.response true 200 tableHeadingDoc)).1
    ∧ Ev.tocBuilt ∉ (run cfgHlThrows (.response true 200 tableHeadingDoc)).1
    ∧ (run cfgHlThrows (.response true 200 tableHeadingDoc)).2.nav.isSome = false
    ∧ (run cfgHlThrows (.response true 200 tableHeadingDoc)).2.container =
        some [.errorP (failHtml (str "TypeError: boom"))] := by
  decide

/-- C3 amended: a post-processing stage that throws aborts all later stages
and TOC synthesis; the promise chain's catch handler then replaces the
Render Target's content with the single error paragraph and the navigation
target is never written. -/
theorem C3_stage_throw_aborts_amended (cfg : StageCfg) (doc : List Elem)
    (s : Nat) (e : List Nat) :
    (cfg.highlightThrows = some e →
      run cfg (.response true s doc) =
        ([.setContent, .highlight, .errorWritten],
         ⟨some [.errorP (failHtml e)], none⟩))
    ∧ (cfg.highlightThrows = none → cfg.convertThrows = some e →
      run cfg (.response true s doc) =
        ([.setContent, .highlight, .convertDiagrams, .errorWritten],
         ⟨some [.errorP (failHtml e)], none⟩))
    ∧ (cfg.highlightThrows = none → cfg.convertThrows = none →
       cfg.tableThrows = some e →
      run cfg (.response true s doc) =
        ([.setContent, .highlight, .convertDiagrams, .styleTablesRun,
          .errorWritten],
         ⟨some [.errorP (failHtml e)], none⟩)) := by
  refine ⟨fun h1 => ?_, fun h1 h2 => ?_, fun h1 h2 h3 => ?_⟩
  · simp [run, runThen, h1]
  · simp [run, runThen, h1, h2]
  · simp [run, runThen, h1, h2, h3]

/-- C3 witness: the amended theorem applied to each of the three throwing
stages on a concrete document. -/
theorem C3_stage_throw_aborts_witness :
    run cfgHlThrows (.response true 200 tableHeadingDoc) =
      ([.setContent, .highlight, .errorWritten],
       ⟨some [.errorP (failHtml (str "TypeError: boom"))], none⟩)
    ∧ run cfgCvThrows (.response true 200 tableHeadingDoc) =
      ([.setContent, .highlight, .convertDiagrams, .errorWritten],
       ⟨some [.errorP (failHtml (str "TypeError: boom2"))], none⟩)
    ∧ run cfgTbThrows (.response true 200 tableHeadingDoc) =
      ([.setContent, .highlight, .convertDiagrams, .styleTablesRun,
        .errorWritten],
       ⟨some [.errorP (failHtml (str "TypeError: boom3"))], none⟩) :=
  ⟨(C3_stage_throw_aborts_amended cfgHlThrows tableHeadingDoc 200
      (str "TypeError: boom")).1 rfl,
   (C3_stage_throw_aborts_amended cfgCvThrows tableHeadingDoc 200
      (str "TypeError: boom2")).2.1 rfl rfl,
   (C3_stage_throw_aborts_amended cfgTbThrows tableHeadingDoc 200
      (str "TypeError: boom3")).2.2 rfl rfl rfl⟩

/-- C4: a fetch that rejects at the transport level or resolves with a
non-ok response reaches the catch handler directly: the Render Target ends
up containing exactly one error paragraph carrying the failure detail, the
navigation target is never written (zero TOC entries), and no stage event
occurs. -/
theorem C4_fetch_failure_single_error (cfg : StageCfg) (e : List Nat)
    (status : Nat) (doc : List Elem) :
    run cfg (.networkError e) =
      ([.errorWritten], ⟨some [.errorP (failHtml e)], none⟩)
    ∧ run cfg (.response false status doc) =
      ([.errorWritten],
       ⟨some [.errorP (failHtml (jsErrorStr (httpMsg status)))], none⟩) :=
  ⟨rfl, rfl⟩

/-- C5 counterexample: with the Render Target present but no `data-file`
attribute configured, the handler still calls `fetch` with the undefined
reference (line 5 reads the attribute, line 7 fetches it unguarded); when
that fetch fails, the failure is written into the Render Target — the
pipeline neither skips the fetch nor exits silently, contradicting the
claim. -/
theorem C5_missing_reference_still_fetches_cex :
    (onLoad true none cfgPlain netAlwaysFails).1 =
      [.fetchIssued none, .errorWritten]
    ∧ (onLoad true none cfgPlain netAlwaysFails).2.container =
        some [.errorP (failHtml (str "TypeError: Failed to fetch"))] := by
  decide

/-- C5 amended: only the absence of the Render Target element itself makes
the pipeline exit silently without any action; when the Render Target is
present but carries no configured Document Reference, a fetch is still
issued with the undefined reference, and a failing outcome of that fetch is
surfaced as the visible error message like any other fetch failure. -/
theorem C5_silent_only_without_container (fileAttr : Option (List Nat))
    (cfg : StageCfg) (net : Option (List Nat) → FetchOutcome) (e : List Nat) :
    onLoad false fileAttr cfg net = ([], ⟨none, none⟩)
    ∧ (onLoad true none cfg net).1.head? = some (.fetchIssued none)
    ∧ (net none = .networkError e →
        onLoad true none cfg net =
          ([.fetchIssued none, .errorWritten],
           ⟨some [.errorP (failHtml e)], none⟩)) := by
  refine ⟨by simp [onLoad], by simp [onLoad], fun h => ?_⟩
  simp [onLoad, run, h]

/-- C5 witness: the amended theorem applied to the always-failing network
and a missing `data-file` attribute. -/
theorem C5_silent_only_without_container_witness :
    onLoad false (some (str "x.md")) cfgPlain netAlwaysFails = ([], ⟨none, none⟩)
    ∧ onLoad true none cfgPlain netAlwaysFails =
        ([.fetchIssued none, .errorWritten],
         ⟨some [.errorP (failHtml (str "TypeError: Failed to fetch"))], none⟩) :=
  ⟨(C5_silent_only_without_container (some (str "x.md")) cfgPlain netAlwaysFails
      (str "TypeError: Failed to fetch")).1,
   (C5_silent_only_without_container (some (str "x.md")) cfgPlain netAlwaysFails
      (str "TypeError: Failed to fetch")).2.2 rfl⟩

/-- Whether a row carries the striped-row background in its inline style. -/
def hasBg (r : StyledRow) : Bool :=
  r.style.any (fun p => p.1 = str "background-color")

/-- Element `i` of the styled body rows: the cell-styled original row,
shaded exactly when its 1-based child position `pos + i` is even. -/
theorem styleDataRows_getElem (rows : List StyledRow) : ∀ (pos i : Nat),
    (styleDataRows pos rows)[i]? =
      (rows[i]?).map (fun r =>
        if (pos + i) % 2 = 0 then shadeRow { r with cells := r.cells.map styleCell }
        else { r with cells := r.cells.map styleCell }) := by
  induction rows with
  | nil => intro pos i; simp [styleDataRows]
  | cons r rs ih =>
    intro pos i
    cases i with
    | zero => simp [styleDataRows]
    | succ j =>
      have harith : pos + 1 + j = pos + (j + 1) := by omega
      simp [styleDataRows, ih (pos + 1) j, harith]

/-- Every cell of every styled body row is a `styleCell` image. -/
theorem mem_styleDataRows_cells : ∀ (rows : List StyledRow) (pos : Nat)
    (r : StyledRow), r ∈ styleDataRows pos rows →
    ∀ c ∈ r.cells, ∃ c₀, c = styleCell c₀ := by
  intro rows
  induction rows with
  | nil => intro pos r hr; simp [styleDataRows] at hr
  | cons x xs ih =>
    intro pos r hr c hc
    simp only [styleDataRows, List.mem_cons] at hr
    rcases hr with h | h
    · have hcells : r.cells = x.cells.map styleCell := by
        rw [h]; split <;> rfl
      rw [hcells] at hc
      obtain ⟨c₀, _, hc₀⟩ := List.mem_map.1 hc
      exact ⟨c₀, hc₀.symm⟩
    · exact ih (pos + 1) r h c hc

/-- C6 counterexample: on a clean two-data-row table, the styling stage
shades the second data row (0-based index 1) and not the first (index 0) —
`tr:nth-child(even)` counts 1-based child positions, so the even-indexed
rows in the claim's 0-based counting are exactly the unshaded ones. -/
theorem C6_even_index_shading_cex :
    (styleTable demoTable).dataRows.map hasBg = [false, true] := by decide

/-- C6 amended: every table in the fragment receives the full inline visual
contract — collapsed borders, the fixed border, full width on the table,
border and padding on every header and body cell — and alternating row
shading in which the odd-indexed data rows are shaded, counting the first
data row as index zero (equivalently, the rows in even 1-based child
position inside the table body); inline styles are independent of external
stylesheets. -/
theorem C6_table_contract_amended (doc : List Elem) (t : HtmlTable) (i : Nat)
    (ht : Elem.table t ∈ doc)
    (hclean : ∀ r ∈ t.dataRows, r.style = ([] : List (List Nat × List Nat)))
    (hi : i < t.dataRows.length) :
    Elem.table (styleTable t) ∈ styleAllTables doc
    ∧ (str "border-collapse", str "collapse") ∈ (styleTable t).style
    ∧ (str "border", str "1px solid #d0d7de") ∈ (styleTable t).style
    ∧ (str "width", str "100%") ∈ (styleTable t).style
    ∧ (∀ c ∈ (styleTable t).headerRow.cells,
        (str "border", str "1px solid #d0d7de") ∈ c.style ∧
        (str "padding", str "6px 13px") ∈ c.style)
    ∧ (∀ r ∈ (styleTable t).dataRows, ∀ c ∈ r.cells,
        (str "border", str "1px solid #d0d7de") ∈ c.style ∧
        (str "padding", str "6px 13px") ∈ c.style)
    ∧ ((styleTable t).dataRows[i]?).map hasBg = some (decide (i % 2 = 1)) := by
  refine ⟨List.mem_map_of_mem _ ht, ?_, ?_, ?_, ?_, ?_, ?_⟩
  · simp [styleTable]
  · simp [styleTable]
  · simp [styleTable]
  · intro c hc
    simp only [styleTable] at hc
    obtain ⟨c₀, _, hc₀⟩ := List.mem_map.1 hc
    subst hc₀
    constructor <;> simp [styleCell]
  · intro r hr c hc
    obtain ⟨c₀, hc₀⟩ := mem_styleDataRows_cells t.dataRows 1 r hr c hc
    subst hc₀
    constructor <;> simp [styleCell]
  · have hdr : (styleTable t).dataRows = styleDataRows 1 t.dataRows := rfl
    rw [hdr, styleDataRows_getElem, List.getElem?_eq_getElem hi]
    have hstyle : (t.dataRows[i]).style = [] :=
      hclean _ (List.getElem_mem hi)
    by_cases hp : i % 2 = 1
    · have heven : (1 + i) % 2 = 0 := by omega
      simp [heven, hp, hasBg, shadeRow, hstyle]
    · have hodd : ¬ ((1 + i) % 2 = 0) := by omega
      simp [hodd, hp, hasBg, hstyle]

/-- C6 witness: the amended theorem applied to the concrete two-row table
at row index 1. -/
theorem C6_table_contract_witness :
    Elem.table (styleTable demoTable) ∈ styleAllTables [Elem.table demoTable]
    ∧ ((styleTable demoTable).dataRows[1]?).map hasBg = some true := by
  have h := C6_table_contract_amended [Elem.table demoTable] demoTable 1
    (by decide) (by decide) (by decide)
  exact ⟨h.1, h.2.2.2.2.2.2⟩

/-- C7 counterexample: on a successful load with MathJax present and the
navigation target present, the trace shows the single MathJax invocation
(step 6, lines 53-56) strictly before TOC synthesis (step 7, lines 58-127)
— not after it as the claim states. -/
theorem C7_typeset_before_toc_cex :
    (run cfgMath (.response true 200 titleDoc)).1 =
      [.setContent, .highlight, .convertDiagrams, .styleTablesRun,
       .mathTypeset, .tocBuilt]
    ∧ countEv .mathTypeset (run cfgMath (.response true 200 titleDoc)).1 = 1
    ∧ beforeEv .mathTypeset .tocBuilt
        (run cfgMath (.response true 200 titleDoc)).1 = true := by
  decide

/-- C7 amended: on any successful load in which no stage throws and MathJax
is present, the math-typesetting capability is invoked exactly once over
the final fragment, and the invocation happens before TOC synthesis. -/
theorem C7_typeset_once_before_toc (cfg : StageCfg) (s : Nat) (doc : List Elem)
    (h1 : cfg.highlightThrows = none) (h2 : cfg.convertThrows = none)
    (h3 : cfg.tableThrows = none) (h4 : cfg.mathjaxPresent = true) :
    countEv .mathTypeset (run cfg (.response true s doc)).1 = 1
    ∧ beforeEv .mathTypeset .tocBuilt (run cfg (.response true s doc)).1 = true := by
  obtain ⟨f1, f2, f3, mp, mj, np⟩ := cfg
  simp only at h1 h2 h3 h4
  subst h1; subst h2; subst h3; subst h4
  simp only [run, runThen]
  cases mp <;>
    cases hC : (np && !(extractHeadings (styleAllTables (convertMermaid
      (applyHighlight doc)))).isEmpty) <;>
      simp [hC] <;> decide

/-- C7 witness: the amended theorem at the concrete MathJax-present
configuration. -/
theorem C7_typeset_once_before_toc_witness :
    countEv .mathTypeset (run cfgMath (.response true 200 titleDoc)).1 = 1
    ∧ beforeEv .mathTypeset .tocBuilt
        (run cfgMath (.response true 200 titleDoc)).1 = true :=
  C7_typeset_once_before_toc cfgMath 200 titleDoc rfl rfl rfl rfl

/-- ASCII letters and digits only — the "alphanumeric" of claim C8's
wording, without underscore. -/
def isAlphanumCode (c : Nat) : Bool :=
  (48 ≤ c && c ≤ 57) || (65 ≤ c && c ≤ 90) || (97 ≤ c && c ≤ 122)

/-- The slug exactly as claim C8 words it: the text lowercased, whitespace
runs collapsed to the single separator, and every character outside the
alphanumeric-plus-separator set stripped (no trimming, underscore not
kept). -/
def slugClaimC8 (t : List Nat) : List Nat :=
  (collapseWs (t.map lowerCode)).filter (fun c => isAlphanumCode c || c = 45)

/-- The slug as the amended claim C8 words it: the text lowercased, then
trimmed, whitespace runs collapsed to a single hyphen, and every character
outside the word-character-plus-hyphen set (letters, digits, underscore,
hyphen) stripped. -/
def slugAmended (t : List Nat) : List Nat :=
  (collapseWs (jsTrim (t.map lowerCode))).filter keepWordHyphen

/-- Printable ASCII is not JavaScript whitespace. -/
theorem isWs_eq_false_of_range {x : Nat} (h1 : 33 ≤ x) (h2 : x ≤ 126) :
    isWs x = false := by
  simp [isWs]
  omega

/-- Lowercasing never creates or destroys whitespace. -/
theorem isWs_lowerCode (c : Nat) : isWs (lowerCode c) = isWs c := by
  unfold lowerCode
  cases h : (decide (65 ≤ c) && decide (c ≤ 90)) with
  | false => simp [h]
  | true =>
    simp only [Bool.and_eq_true, decide_eq_true_eq] at h
    rw [if_pos (by simp [h.1, h.2])]
    rw [isWs_eq_false_of_range (by omega) (by omega),
        isWs_eq_false_of_range (by omega) (by omega)]

/-- Lowercasing preserves membership in the kept character set. -/
theorem keep_lowerCode (c : Nat) : keepWordHyphen (lowerCode c) = keepWordHyphen c := by
  unfold lowerCode
  cases h : (decide (65 ≤ c) && decide (c ≤ 90)) with
  | false => simp [h]
  | true =>
    simp only [Bool.and_eq_true, decide_eq_true_eq] at h
    rw [if_pos (by simp [h.1, h.2])]
    have hl : keepWordHyphen (c + 32) = true := by
      simp [keepWordHyphen, isWordChar]
      omega
    have hu : keepWordHyphen c = true := by
      simp [keepWordHyphen, isWordChar]
      omega
    rw [hl, hu]

/-- Lowercase of the hyphen is the hyphen. -/
theorem lowerCode_hyphen : lowerCode 45 = 45 := rfl

/-- dropWhile on whitespace commutes with lowercasing. -/
theorem dropWhile_isWs_map_lower (t : List Nat) :
    (t.map lowerCode).dropWhile isWs = (t.dropWhile isWs).map lowerCode := by
  induction t with
  | nil => rfl
  | cons c cs ih =>
    simp only [List.map_cons, List.dropWhile_cons, isWs_lowerCode]
    cases h : isWs c <;> simp [h, ih]

/-- Trimming commutes with lowercasing. -/
theorem jsTrim_map_lower (t : List Nat) :
    jsTrim (t.map lowerCode) = (jsTrim t).map lowerCode := by
  unfold jsTrim
  rw [dropWhile_isWs_map_lower, ← List.map_reverse, dropWhile_isWs_map_lower,
      ← List.map_reverse]

/-- Whitespace collapsing commutes with lowercasing. -/
theorem collapseWsAux_map_lower (t : List Nat) : ∀ (b : Bool),
    collapseWsAux b (t.map lowerCode) = (collapseWsAux b t).map lowerCode := by
  induction t with
  | nil => intro b; rfl
  | cons c cs ih =>
    intro b
    simp only [List.map_cons, collapseWsAux, isWs_lowerCode]
    cases h : isWs c with
    | true => cases b <;> simp [h, ih, lowerCode_hyphen]
    | false => simp [h, ih]

/-- Filtering the kept set commutes with lowercasing. -/
theorem filter_keep_map_lower (t : List Nat) :
    (t.map lowerCode).filter keepWordHyphen = (t.filter keepWordHyphen).map lowerCode := by
  induction t with
  | nil => rfl
  | cons c cs ih =>
    simp only [List.map_cons, List.filter_cons, keep_lowerCode]
    cases h : keepWordHyphen c <;> simp [h, ih]

/-- The source's slug (trim, collapse, strip, then lowercase) computes the
same identifier as the amended-specification slug (lowercase first). -/
theorem slugAmended_eq_jsSlug (t : List Nat) : slugAmended t = jsSlug t := by
  unfold slugAmended jsSlug collapseWs
  rw [jsTrim_map_lower, collapseWsAux_map_lower, filter_keep_map_lower]

/-- C8 counterexample: a heading titled "foo_bar" with no pre-existing id is
assigned the identifier "foo_bar" — the underscore, which is outside the
alphanumeric-plus-separator set of the claim, is kept, so the assigned
identifier differs from the claim's slug "foobar". -/
theorem C8_slug_keeps_underscore_cex :
    headingId ⟨2, [], str "foo_bar"⟩ = str "foo_bar"
    ∧ slugClaimC8 (str "foo_bar") = str "foobar"
    ∧ headingId ⟨2, [], str "foo_bar"⟩ ≠ slugClaimC8 (str "foo_bar") := by
  decide

/-- C8 amended: for each level-1/2/3 heading, a non-empty pre-existing
identifier is reused unchanged; otherwise the assigned identifier is the
heading text lowercased, trimmed, with whitespace runs collapsed to a
single hyphen and all characters outside the word-character-plus-hyphen
set (letters, digits, underscore, hyphen) stripped. -/
theorem C8_heading_id_amended (h : Heading) :
    headingId h = if h.idAttr = [] then slugAmended h.text else h.idAttr := by
  unfold headingId
  by_cases hid : h.idAttr = [] <;> simp [hid, slugAmended_eq_jsSlug]

/-- Items appended by the TOC loop are one per heading. -/
theorem buildTocAux_length : ∀ (idx : Nat) (hs : List Heading),
    (buildTocAux idx hs).length = hs.length := by
  intro idx hs
  induction hs generalizing idx with
  | nil => rfl
  | cons h t ih => simp [buildTocAux, ih]

/-- No item appended by the TOC loop carries nested list items. -/
theorem buildTocAux_childItems : ∀ (idx : Nat) (hs : List Heading),
    (buildTocAux idx hs).map (fun li => li.childItems) =
      hs.map (fun _ => ([] : List LiNode)) := by
  intro idx hs
  induction hs generalizing idx with
  | nil => rfl
  | cons h t ih => simp [buildTocAux, mkTocItem, ih]

/-- Each item appended by the TOC loop holds exactly one anchor, labelled
with its heading's text and linking to its heading's id, in document
order. -/
theorem buildTocAux_anchors : ∀ (idx : Nat) (hs : List Heading),
    (buildTocAux idx hs).map (fun li => li.anchors.map
      (fun a => (a.textContent, a.href))) =
      hs.map (fun h => [(h.text, 35 :: headingId h)]) := by
  intro idx hs
  induction hs generalizing idx with
  | nil => rfl
  | cons h t ih => simp [buildTocAux, mkTocItem, tocHref, ih]

/-- C9: the synthesized TOC is a single flat list — one generated `ul`
whose direct children are exactly one `li` per level-1/2/3 heading in
document order, each holding exactly one anchor (labelled with the
heading's text, pointing at the heading's id) and no nested list items,
whatever the heading levels are. -/
theorem C9_toc_flat (hs : List Heading) :
    (buildToc hs).items.length = hs.length
    ∧ (buildToc hs).items.map (fun li => li.childItems) =
        hs.map (fun _ => ([] : List LiNode))
    ∧ (buildToc hs).items.map (fun li => li.anchors.map
        (fun a => (a.textContent, a.href))) =
        hs.map (fun h => [(h.text, 35 :: headingId h)]) :=
  ⟨buildTocAux_length 0 hs, buildTocAux_childItems 0 hs, buildTocAux_anchors 0 hs⟩

/-- dropWhile does nothing on a list with no whitespace. -/
theorem dropWhile_isWs_id (t : List Nat) (hws : ∀ c ∈ t, isWs c = false) :
    t.dropWhile isWs = t := by
  cases t with
  | nil => rfl
  | cons c cs => simp [List.dropWhile_cons, hws c (by simp)]

/-- Trimming does nothing on a list with no whitespace. -/
theorem jsTrim_id (t : List Nat) (hws : ∀ c ∈ t, isWs c = false) :
    jsTrim t = t := by
  unfold jsTrim
  rw [dropWhile_isWs_id t hws,
      dropWhile_isWs_id t.reverse
        (fun c hc => hws c (List.mem_reverse.mp hc)),
      List.reverse_reverse]

/-- Collapsing does nothing on a list with no whitespace. -/
theorem collapseWsAux_id (t : List Nat) (hws : ∀ c ∈ t, isWs c = false) :
    ∀ (b : Bool), collapseWsAux b t = t := by
  induction t with
  | nil => intro b; rfl
  | cons c cs ih =>
    intro b
    simp only [collapseWsAux, hws c (by simp)]
    simp [ih (fun x hx => hws x (by simp [hx]))]

/-- Filtering strips everything when no character is kept. -/
theorem filter_keep_nil (t : List Nat)
    (hk : ∀ c ∈ t, keepWordHyphen c = false) :
    t.filter keepWordHyphen = [] := by
  induction t with
  | nil => rfl
  | cons c cs ih =>
    simp only [List.filter_cons, hk c (by simp)]
    simp [ih (fun x hx => hk x (by simp [hx]))]

/-- C10 counterexample: the heading text "! !" contains no alphanumeric,
underscore or hyphen character, yet the derived identifier is "-" (the
inner whitespace run is collapsed to a hyphen before stripping) and the
TOC href is "#-", not "#". -/
theorem C10_punctuation_space_href_cex :
    headingId ⟨2, [], str "! !"⟩ = [45]
    ∧ tocHref ⟨2, [], str "! !"⟩ = str "#-"
    ∧ tocHref ⟨2, [], str "! !"⟩ ≠ str "#" := by
  decide

/-- C10 amended: for any heading without a pre-existing identifier whose
text contains no alphanumeric, underscore, hyphen or whitespace character,
the derived identifier is the empty string, the heading is assigned an
empty id, and the TOC href is exactly "#". -/
theorem C10_empty_slug_amended (h : Heading) (hid : h.idAttr = [])
    (hc : ∀ c ∈ h.text, isWordChar c = false ∧ c ≠ 45 ∧ isWs c = false) :
    headingId h = [] ∧ tocHref h = [35] := by
  have hws : ∀ c ∈ h.text, isWs c = false := fun c hcm => (hc c hcm).2.2
  have hk : ∀ c ∈ h.text, keepWordHyphen c = false := by
    intro c hcm
    have hcc := hc c hcm
    simp [keepWordHyphen, hcc.1, hcc.2.1]
  have hslug : jsSlug h.text = [] := by
    unfold jsSlug collapseWs
    rw [jsTrim_id h.text hws, collapseWsAux_id h.text hws false,
        filter_keep_nil h.text hk]
    rfl
  exact ⟨by simp [headingId, hid, hslug],
         by simp [tocHref, headingId, hid, hslug]⟩

/-- C10 witness: the amended theorem at the all-punctuation heading
"!?". -/
theorem C10_empty_slug_witness :
    headingId ⟨3, [], str "!?"⟩ = [] ∧ tocHref ⟨3, [], str "!?"⟩ = [35] :=
  C10_empty_slug_amended ⟨3, [], str "!?"⟩ rfl (by decide)

end MarkdownViewer
